import Mathlib

/-!
Shallow embedding of `godot-core/src/obj/onready.rs` and
`godot-core/src/obj/rtti.rs`.

Rust panics are fatal; an operation that may panic is rendered as an
`Except OpError` value. `std::hint::unreachable_unchecked()` (undefined
behaviour, used on the `AutoInitializing` arms of `init` and `init_auto`)
is rendered as the distinct `OpError.unreachableUnchecked` outcome, while
the `unreachable!()` macro (an ordinary panic with the standard message) is
rendered as a `fatal` outcome with that message.

`OnReady::init` and `OnReady::init_auto` are instrumented with a second
result component counting how many times the stored initializer closure is
invoked during the call: `init` never touches the closure, and `init_auto`
invokes it exactly once on its `AutoPrepared` arm.
-/

/-- Outcome of a Rust call that did not return normally: either a `panic!`
with its message, or `std::hint::unreachable_unchecked()` (undefined
behaviour). -/
inductive OpError where
  | fatal (msg : String)
  | unreachableUnchecked
deriving DecidableEq

/-- Message of Rust's `unreachable!()` macro. -/
def unreachableMsg : String := "internal error: entered unreachable code"

/-- Panic message of `OnReady::deref` on a `ManualUninitialized` container. -/
def manualUninitMsg : String := "OnReady manual value uninitialized, did you call init()?"

/-- Panic message of `OnReady::deref` on an `AutoPrepared` container. -/
def autoUninitMsg : String := "OnReady automatic value uninitialized, is only available in ready()"

/-- Panic message of `OnReady::deref_mut` on any uninitialized container. -/
def notYetInitMsg : String := "value not yet initialized"

/-- Panic message of `OnReady::init` on an `AutoPrepared` container. -/
def initOnAutoMsg : String := "cannot call init() on auto-initialized OnReady objects"

/-- Panic message of `OnReady::init` on an `Initialized` container. -/
def doubleInitMsg : String := "already initialized; did you call init() more than once?"

/-- Panic message of `OnReady::init_auto` on an `Initialized` container. -/
def doubleTriggerMsg : String := "OnReady object already initialized"

/-- The four variants of `InitState<T>` in onready.rs. The boxed
`dyn FnOnce() -> T` initializer is embedded as a function `Unit → T`. -/
inductive InitState (T : Type) where
  | ManualUninitialized : InitState T
  | AutoPrepared (initializer : Unit → T) : InitState T
  | AutoInitializing : InitState T
  | Initialized (value : T) : InitState T

/-- `OnReady<T>`: a single `state` field holding an `InitState<T>`. -/
structure OnReady (T : Type) where
  state : InitState T

/-- `OnReady::new(init_fn)`: construct in the `AutoPrepared` state, storing
the initializer without invoking it. -/
def OnReady.new {T : Type} (init_fn : Unit → T) : OnReady T :=
  ⟨InitState.AutoPrepared init_fn⟩

/-- `OnReady::manual()`: construct in the `ManualUninitialized` state. -/
def OnReady.manual {T : Type} : OnReady T :=
  ⟨InitState.ManualUninitialized⟩

/-- `OnReady::init(value)`. The second component counts invocations of the
stored initializer during the call (always 0: `init` never runs it). -/
def OnReady.init {T : Type} (o : OnReady T) (value : T) :
    Except OpError (OnReady T) × Nat :=
  match o.state with
  | InitState.ManualUninitialized =>
      (Except.ok ⟨InitState.Initialized value⟩, 0)
  | InitState.AutoPrepared _ =>
      (Except.error (OpError.fatal initOnAutoMsg), 0)
  | InitState.AutoInitializing =>
      (Except.error OpError.unreachableUnchecked, 0)
  | InitState.Initialized _ =>
      (Except.error (OpError.fatal doubleInitMsg), 0)

/-- `OnReady::init_auto()`. The source first matches on the state (skipping
`ManualUninitialized`, panicking on `Initialized`), then swaps the slot to
the transient `AutoInitializing` marker, moves the initializer out, invokes
it, and stores the produced value as `Initialized`. In this sequential pure
rendering the whole transition is one step, so the marker never escapes; the
second component counts invocations of the stored initializer (1 exactly on
the `AutoPrepared` arm). -/
def OnReady.init_auto {T : Type} (o : OnReady T) :
    Except OpError (OnReady T) × Nat :=
  match o.state with
  | InitState.ManualUninitialized => (Except.ok o, 0)
  | InitState.AutoPrepared initializer =>
      (Except.ok ⟨InitState.Initialized (initializer ())⟩, 1)
  | InitState.AutoInitializing =>
      (Except.error OpError.unreachableUnchecked, 0)
  | InitState.Initialized _ =>
      (Except.error (OpError.fatal doubleTriggerMsg), 0)

/-- `<OnReady as Deref>::deref`: shared read access to the value. -/
def OnReady.deref {T : Type} (o : OnReady T) : Except OpError T :=
  match o.state with
  | InitState.ManualUninitialized =>
      Except.error (OpError.fatal manualUninitMsg)
  | InitState.AutoPrepared _ =>
      Except.error (OpError.fatal autoUninitMsg)
  | InitState.AutoInitializing =>
      Except.error (OpError.fatal unreachableMsg)
  | InitState.Initialized value => Except.ok value

/-- `<OnReady as DerefMut>::deref_mut`: obtaining the exclusive reference;
returns the current pointee. Both uninitialized variants share the single
`"value not yet initialized"` panic message in the source. -/
def OnReady.deref_mut {T : Type} (o : OnReady T) : Except OpError T :=
  match o.state with
  | InitState.Initialized value => Except.ok value
  | InitState.ManualUninitialized =>
      Except.error (OpError.fatal notYetInitMsg)
  | InitState.AutoPrepared _ =>
      Except.error (OpError.fatal notYetInitMsg)
  | InitState.AutoInitializing =>
      Except.error (OpError.fatal unreachableMsg)

/-- Writing through the exclusive reference obtained from `deref_mut`:
the reference points at the `value` field of the `Initialized` variant, so a
mutation replaces the pointee while the variant stays `Initialized`. Fails
exactly when `deref_mut` fails, with the same messages. -/
def OnReady.modify {T : Type} (o : OnReady T) (f : T → T) :
    Except OpError (OnReady T) :=
  match o.state with
  | InitState.Initialized value =>
      Except.ok ⟨InitState.Initialized (f value)⟩
  | InitState.ManualUninitialized =>
      Except.error (OpError.fatal notYetInitMsg)
  | InitState.AutoPrepared _ =>
      Except.error (OpError.fatal notYetInitMsg)
  | InitState.AutoInitializing =>
      Except.error (OpError.fatal unreachableMsg)

/-- The external `Property` capability of a type `T` (trait
`crate::property::Property`): `get_property`, `set_property`, and the static
`property_hint`. `I` is the associated `Intermediate` type, `H` stands for
`PropertyHintInfo` (external, kept abstract). -/
structure PropertyImpl (T I H : Type) where
  get_property : T → I
  set_property : T → I → T
  property_hint : H

/-- The external `Export` capability of a type `T` (trait
`crate::property::Export`): the static `default_export_info`. The parameter
`T` records which type the capability belongs to. -/
structure ExportImpl (T : Type) (H : Type) where
  default_export_info : H

/-- `<OnReady<T> as Property>::get_property`: `let deref: &T = self;
deref.get_property()` — dereference, then delegate to `T`'s getter. -/
def OnReady.get_property {T I H : Type} (p : PropertyImpl T I H)
    (o : OnReady T) : Except OpError I :=
  Except.map p.get_property o.deref

/-- `<OnReady<T> as Property>::set_property`: `let deref: &mut T = self;
deref.set_property(value)` — mutable dereference, then delegate to `T`'s
setter through the reference. -/
def OnReady.set_property {T I H : Type} (p : PropertyImpl T I H)
    (o : OnReady T) (value : I) : Except OpError (OnReady T) :=
  o.modify (fun t => p.set_property t value)

/-- `<OnReady<T> as Property>::property_hint`: a static method (no `self`);
delegates directly to `T::property_hint()`. -/
def OnReady.property_hint {T I H : Type} (p : PropertyImpl T I H) : H :=
  p.property_hint

/-- `<OnReady<T> as Export>::default_export_info`: a static method (no
`self`); delegates directly to `T::default_export_info()`. -/
def OnReady.default_export_info {T H : Type} (e : ExportImpl T H) : H :=
  e.default_export_info

/-- `ObjectRtti` from rtti.rs: always the cached `instance_id`
(`InstanceId` embedded as `Nat`); the `class_name` field exists only under
`cfg(debug_assertions)`, embedded as an `Option` that is `some` exactly in
checked builds. -/
structure ObjectRtti where
  instance_id : Nat
  class_name : Option String
deriving DecidableEq

/-- `ObjectRtti::of::<T>(instance_id)`, parametrized by whether
`debug_assertions` is enabled and by `T::class_name()`. -/
def ObjectRtti.of (debug_assertions : Bool) (class_name : String)
    (instance_id : Nat) : ObjectRtti :=
  ⟨instance_id, if debug_assertions then some class_name else none⟩

/-- Modelled from the spec: `crate::engine::ensure_object_inherits` is
external to src/ (it lives in the engine module). Per the spec's
type-identity registry contract, it is given the tag's recorded (actual)
class name, the statically expected class name, and the instance id; it
succeeds when `isSubtypeOrEqual actual expected` holds and otherwise fails
fatally with a message carrying both type names (and the instance id). -/
def ensure_object_inherits (isSubtypeOrEqual : String → String → Bool)
    (actual expected : String) (instance_id : Nat) : Except OpError Unit :=
  if isSubtypeOrEqual actual expected then
    Except.ok ()
  else
    Except.error (OpError.fatal
      ("instance of class " ++ actual ++ " is not a " ++ expected
        ++ " (instance id " ++ toString instance_id ++ ")"))

/-- `ObjectRtti::check_type::<T>()`: under `debug_assertions` (here: when
`class_name` was captured) run `ensure_object_inherits`; always return the
stored instance id when that check does not abort. -/
def ObjectRtti.check_type (isSubtypeOrEqual : String → String → Bool)
    (rtti : ObjectRtti) (expected : String) : Except OpError Nat :=
  match rtti.class_name with
  | some actual =>
      match ensure_object_inherits isSubtypeOrEqual actual expected
          rtti.instance_id with
      | Except.ok _ => Except.ok rtti.instance_id
      | Except.error e => Except.error e
  | none => Except.ok rtti.instance_id

/-- A concrete sample subtype-or-equal relation on class names, used to
instantiate the universally quantified theorems: every class inherits
itself, and `Node2D` inherits `Node`. -/
def sampleInherits (actual expected : String) : Bool :=
  actual == expected || (actual == "Node2D" && expected == "Node")

/-- C1: for every `T` and initializer `f`, `new(f)` followed by one
`triggerAutoInit()` (`init_auto`) succeeds, invokes `f` exactly once during
the trigger, leaves the container in the `Initialized` state holding `f ()`,
and a subsequent dereference returns exactly `f ()`. -/
theorem onready_new_trigger_deref (T : Type) (f : Unit → T) :
    ∃ o' : OnReady T,
      (OnReady.new f).init_auto = (Except.ok o', 1)
      ∧ o'.state = InitState.Initialized (f ())
      ∧ o'.deref = Except.ok (f ()) :=
  ⟨⟨InitState.Initialized (f ())⟩, rfl, rfl, rfl⟩

/-- C2: for every `T` and values `v`, `w`: dereferencing a `manual()`
container before any `init` fails fatally; `manual()` then `init(v)`
succeeds, leaves the container `Initialized` with `v`, and a subsequent
dereference yields exactly `v`; a second `init(w)` after that fails
fatally. -/
theorem onready_manual_init_deref (T : Type) (v w : T) :
    (OnReady.manual : OnReady T).deref
      = Except.error (OpError.fatal manualUninitMsg)
    ∧ ∃ o' : OnReady T,
        (OnReady.manual : OnReady T).init v = (Except.ok o', 0)
        ∧ o'.state = InitState.Initialized v
        ∧ o'.deref = Except.ok v
        ∧ (o'.init w).1 = Except.error (OpError.fatal doubleInitMsg) :=
  ⟨rfl, ⟨InitState.Initialized v⟩, rfl, rfl, rfl, rfl⟩

/-- C3 counterexample: on the write-access side the source does not
distinguish the two uninitialized cases — `deref_mut` panics with the single
message `"value not yet initialized"` both for a manual container that was
never initialized and for an automatic container accessed before the
trigger. -/
theorem onready_deref_mut_message_shared :
    (OnReady.manual : OnReady Nat).deref_mut
      = Except.error (OpError.fatal notYetInitMsg)
    ∧ (OnReady.new (fun _ => (0 : Nat))).deref_mut
      = Except.error (OpError.fatal notYetInitMsg) :=
  ⟨rfl, rfl⟩

/-- C3 (amended): every container that is not `Initialized` fails fatally on
both read and write access; the read-access (`deref`) messages distinguish
the manual-never-initialized case from the automatic-before-trigger case,
while the write-access (`deref_mut`) message is the same single string
`"value not yet initialized"` in both cases. -/
theorem onready_uninitialized_access_fails (T : Type) (o : OnReady T)
    (h : ∀ v : T, o.state ≠ InitState.Initialized v) :
    (∃ m, o.deref = Except.error (OpError.fatal m))
    ∧ (∃ m, o.deref_mut = Except.error (OpError.fatal m))
    ∧ ((OnReady.manual : OnReady T).deref
          = Except.error (OpError.fatal manualUninitMsg)
       ∧ (∀ f : Unit → T, (OnReady.new f).deref
          = Except.error (OpError.fatal autoUninitMsg))
       ∧ manualUninitMsg ≠ autoUninitMsg)
    ∧ ((OnReady.manual : OnReady T).deref_mut
          = Except.error (OpError.fatal notYetInitMsg)
       ∧ ∀ f : Unit → T, (OnReady.new f).deref_mut
          = Except.error (OpError.fatal notYetInitMsg)) := by
  refine ⟨?_, ?_, ⟨rfl, fun f => rfl, by decide⟩, ⟨rfl, fun f => rfl⟩⟩
  · obtain ⟨s⟩ := o
    cases s with
    | ManualUninitialized => exact ⟨manualUninitMsg, rfl⟩
    | AutoPrepared g => exact ⟨autoUninitMsg, rfl⟩
    | AutoInitializing => exact ⟨unreachableMsg, rfl⟩
    | Initialized v => exact absurd rfl (h v)
  · obtain ⟨s⟩ := o
    cases s with
    | ManualUninitialized => exact ⟨notYetInitMsg, rfl⟩
    | AutoPrepared g => exact ⟨notYetInitMsg, rfl⟩
    | AutoInitializing => exact ⟨unreachableMsg, rfl⟩
    | Initialized v => exact absurd rfl (h v)

/-- Witness for the amended C3, at the concrete manual container over
`Nat`. -/
theorem onready_uninitialized_access_fails_witness :
    (∃ m, (OnReady.manual : OnReady Nat).deref
      = Except.error (OpError.fatal m))
    ∧ (∃ m, (OnReady.manual : OnReady Nat).deref_mut
      = Except.error (OpError.fatal m)) :=
  ⟨(onready_uninitialized_access_fails Nat OnReady.manual
      (fun v hv => nomatch hv)).1,
   (onready_uninitialized_access_fails Nat OnReady.manual
      (fun v hv => nomatch hv)).2.1⟩

/-- C5: `triggerAutoInit()` (`init_auto`) on any container in the
`Initialized` state — however it got there, by a prior trigger or a prior
manual `init` — fails fatally with the double-trigger message. -/
theorem onready_trigger_on_initialized_fatal (T : Type) (o : OnReady T)
    (v : T) (h : o.state = InitState.Initialized v) :
    (o.init_auto).1 = Except.error (OpError.fatal doubleTriggerMsg) := by
  obtain ⟨s⟩ := o
  cases s with
  | ManualUninitialized => exact nomatch h
  | AutoPrepared g => exact nomatch h
  | AutoInitializing => exact nomatch h
  | Initialized w => rfl

/-- Witness for C5 at a concrete initialized container over `Nat`. -/
theorem onready_trigger_on_initialized_fatal_witness :
    ((⟨InitState.Initialized (5 : Nat)⟩ : OnReady Nat).init_auto).1
      = Except.error (OpError.fatal doubleTriggerMsg) :=
  onready_trigger_on_initialized_fatal Nat ⟨InitState.Initialized 5⟩ 5 rfl

/-- C6: `init(v)` on a container built with `new(f)` fails fatally, with
zero invocations of `f` on that path (the instrumented count is 0, and the
outcome is the same for every `f`). -/
theorem onready_init_on_auto_fatal (T : Type) (f : Unit → T) (v : T) :
    (OnReady.new f).init v = (Except.error (OpError.fatal initOnAutoMsg), 0) :=
  rfl

/-- C7: `triggerAutoInit()` (`init_auto`) on a `manual()` container is a
no-op — it succeeds returning the container unchanged, still in the
`ManualUninitialized` state, with zero initializer invocations — and a
subsequent `init(v)` still succeeds, after which dereference yields exactly
`v`. -/
theorem onready_trigger_on_manual_noop (T : Type) (v : T) :
    (OnReady.manual : OnReady T).init_auto
      = (Except.ok (OnReady.manual : OnReady T), 0)
    ∧ (OnReady.manual : OnReady T).state = InitState.ManualUninitialized
    ∧ ∃ o' : OnReady T,
        ((OnReady.manual : OnReady T).init v).1 = Except.ok o'
        ∧ o'.deref = Except.ok v :=
  ⟨rfl, rfl, ⟨InitState.Initialized v⟩, rfl, rfl⟩

/-- C8: state-machine invariant. Once a container is `Initialized` it never
leaves that variant: `init` and `init_auto` fail fatally, `deref` returns
the value, and writing through `deref_mut` (`modify`) replaces the value
while keeping the variant `Initialized`. Moreover no public operation
completes (succeeds) leaving the container in the transient
`AutoInitializing` state: a successful `init` or `modify` always leaves an
`Initialized` container, and a successful `init_auto` never leaves
`AutoInitializing`. -/
theorem onready_state_machine_invariant (T : Type) (o : OnReady T) :
    (∀ v : T, o.state = InitState.Initialized v →
       (∀ w : T, ∃ m, (o.init w).1 = Except.error m)
       ∧ (∃ m, (o.init_auto).1 = Except.error m)
       ∧ o.deref = Except.ok v
       ∧ (∀ f : T → T, o.modify f
            = Except.ok ⟨InitState.Initialized (f v)⟩))
    ∧ (∀ (w : T) (o' : OnReady T), (o.init w).1 = Except.ok o' →
        ∃ v : T, o'.state = InitState.Initialized v)
    ∧ (∀ o' : OnReady T, (o.init_auto).1 = Except.ok o' →
        o'.state ≠ InitState.AutoInitializing)
    ∧ (∀ (f : T → T) (o' : OnReady T), o.modify f = Except.ok o' →
        ∃ v : T, o'.state = InitState.Initialized v) := by
  obtain ⟨s⟩ := o
  cases s with
  | ManualUninitialized =>
      refine ⟨?_, ?_, ?_, ?_⟩
      · intro v hv
        exact nomatch hv
      · intro w o' h
        have h2 : Except.ok (⟨InitState.Initialized w⟩ : OnReady T)
            = Except.ok o' := h
        injection h2 with h3
        exact ⟨w, by rw [← h3]⟩
      · intro o' h
        have h2 : Except.ok (⟨InitState.ManualUninitialized⟩ : OnReady T)
            = Except.ok o' := h
        injection h2 with h3
        rw [← h3]
        intro hc
        exact nomatch hc
      · intro f o' h
        exact nomatch h
  | AutoPrepared g =>
      refine ⟨?_, ?_, ?_, ?_⟩
      · intro v hv
        exact nomatch hv
      · intro w o' h
        exact nomatch h
      · intro o' h
        have h2 : Except.ok (⟨InitState.Initialized (g ())⟩ : OnReady T)
            = Except.ok o' := h
        injection h2 with h3
        rw [← h3]
        intro hc
        exact nomatch hc
      · intro f o' h
        exact nomatch h
  | AutoInitializing =>
      refine ⟨?_, ?_, ?_, ?_⟩
      · intro v hv
        exact nomatch hv
      · intro w o' h
        exact nomatch h
      · intro o' h
        exact nomatch h
      · intro f o' h
        exact nomatch h
  | Initialized v =>
      refine ⟨?_, ?_, ?_, ?_⟩
      · intro u hu
        have huv : InitState.Initialized v = InitState.Initialized u := hu
        injection huv with huv
        subst huv
        exact ⟨fun w => ⟨OpError.fatal doubleInitMsg, rfl⟩,
          ⟨OpError.fatal doubleTriggerMsg, rfl⟩, rfl, fun f => rfl⟩
      · intro w o' h
        exact nomatch h
      · intro o' h
        exact nomatch h
      · intro f o' h
        have h2 : Except.ok (⟨InitState.Initialized (f v)⟩ : OnReady T)
            = Except.ok o' := h
        injection h2 with h3
        exact ⟨f v, by rw [← h3]⟩

/-- Witness for C8 at a concrete initialized container over `Nat`. -/
theorem onready_state_machine_invariant_witness :
    (⟨InitState.Initialized (3 : Nat)⟩ : OnReady Nat).deref = Except.ok 3
    ∧ (⟨InitState.Initialized (3 : Nat)⟩ : OnReady Nat).modify
        (fun t => t + 1) = Except.ok ⟨InitState.Initialized 4⟩ :=
  ⟨((onready_state_machine_invariant Nat
      ⟨InitState.Initialized 3⟩).1 3 rfl).2.2.1,
   ((onready_state_machine_invariant Nat
      ⟨InitState.Initialized 3⟩).1 3 rfl).2.2.2 (fun t => t + 1)⟩

/-- C9: property-metadata pass-through. On an `Initialized` container,
`get_property` returns exactly what `T`'s own `get_property` returns on the
contained value (and `set_property` routes `T`'s setter through the
contained value); on any container that is not `Initialized`, both
`get_property` and `set_property` fail fatally. -/
theorem onready_property_passthrough (T I H : Type) (p : PropertyImpl T I H)
    (o : OnReady T) :
    (∀ v : T, o.state = InitState.Initialized v →
        OnReady.get_property p o = Except.ok (p.get_property v)
        ∧ ∀ i : I, OnReady.set_property p o i
            = Except.ok ⟨InitState.Initialized (p.set_property v i)⟩)
    ∧ ((∀ v : T, o.state ≠ InitState.Initialized v) →
        (∃ m, OnReady.get_property p o = Except.error m)
        ∧ ∀ i : I, ∃ m, OnReady.set_property p o i = Except.error m) := by
  obtain ⟨s⟩ := o
  cases s with
  | ManualUninitialized =>
      refine ⟨?_, ?_⟩
      · intro v hv
        exact nomatch hv
      · intro h
        exact ⟨⟨OpError.fatal manualUninitMsg, rfl⟩,
          fun i => ⟨OpError.fatal notYetInitMsg, rfl⟩⟩
  | AutoPrepared g =>
      refine ⟨?_, ?_⟩
      · intro v hv
        exact nomatch hv
      · intro h
        exact ⟨⟨OpError.fatal autoUninitMsg, rfl⟩,
          fun i => ⟨OpError.fatal notYetInitMsg, rfl⟩⟩
  | AutoInitializing =>
      refine ⟨?_, ?_⟩
      · intro v hv
        exact nomatch hv
      · intro h
        exact ⟨⟨OpError.fatal unreachableMsg, rfl⟩,
          fun i => ⟨OpError.fatal unreachableMsg, rfl⟩⟩
  | Initialized v =>
      refine ⟨?_, fun h => absurd rfl (h v)⟩
      intro u hu
      have huv : InitState.Initialized v = InitState.Initialized u := hu
      injection huv with huv
      subst huv
      exact ⟨rfl, fun i => rfl⟩

/-- Witness for C9 with the identity getter over `Nat`: `get` on an
initialized container yields the contained value, and `get` on an
uninitialized one fails. -/
theorem onready_property_passthrough_witness :
    OnReady.get_property (PropertyImpl.mk (fun t => t) (fun _ i => i) ())
        (⟨InitState.Initialized (7 : Nat)⟩ : OnReady Nat) = Except.ok 7
    ∧ ∃ m, OnReady.get_property
        (PropertyImpl.mk (fun t => t) (fun _ i => i) ())
        (OnReady.manual : OnReady Nat) = Except.error m :=
  ⟨((onready_property_passthrough Nat Nat Unit
      (PropertyImpl.mk (fun t => t) (fun _ i => i) ())
      ⟨InitState.Initialized 7⟩).1 7 rfl).1,
   ((onready_property_passthrough Nat Nat Unit
      (PropertyImpl.mk (fun t => t) (fun _ i => i) ())
      OnReady.manual).2 (fun v hv => nomatch hv)).1⟩

/-- C10: the static hint operations delegate directly to `T` — they are
associated functions taking no container at all, so they never read the
container's state and return `T`'s answer unconditionally — while `get` and
`set` on the same uninitialized container fail fatally. -/
theorem onready_static_hints_ignore_state (T I H : Type)
    (p : PropertyImpl T I H) (e : ExportImpl T H) (o : OnReady T) :
    OnReady.property_hint p = p.property_hint
    ∧ OnReady.default_export_info e = e.default_export_info
    ∧ ((∀ v : T, o.state ≠ InitState.Initialized v) →
        (∃ m, OnReady.get_property p o = Except.error m)
        ∧ ∀ i : I, ∃ m, OnReady.set_property p o i = Except.error m) := by
  refine ⟨rfl, rfl, fun h => ?_⟩
  obtain ⟨s⟩ := o
  cases s with
  | ManualUninitialized =>
      exact ⟨⟨OpError.fatal manualUninitMsg, rfl⟩,
        fun i => ⟨OpError.fatal notYetInitMsg, rfl⟩⟩
  | AutoPrepared g =>
      exact ⟨⟨OpError.fatal autoUninitMsg, rfl⟩,
        fun i => ⟨OpError.fatal notYetInitMsg, rfl⟩⟩
  | AutoInitializing =>
      exact ⟨⟨OpError.fatal unreachableMsg, rfl⟩,
        fun i => ⟨OpError.fatal unreachableMsg, rfl⟩⟩
  | Initialized v => exact absurd rfl (h v)

/-- Witness for C10 with concrete hint values over `Nat` and the manual
(uninitialized) container. -/
theorem onready_static_hints_ignore_state_witness :
    OnReady.property_hint
        (PropertyImpl.mk (fun t : Nat => t) (fun _ i => i) (37 : Nat)) = 37
    ∧ OnReady.default_export_info
        (ExportImpl.mk 99 : ExportImpl Nat Nat) = 99
    ∧ ((∃ m, OnReady.get_property
          (PropertyImpl.mk (fun t : Nat => t) (fun _ i => i) (37 : Nat))
          (OnReady.manual : OnReady Nat) = Except.error m)
       ∧ ∀ i : Nat, ∃ m, OnReady.set_property
          (PropertyImpl.mk (fun t : Nat => t) (fun _ i => i) (37 : Nat))
          (OnReady.manual : OnReady Nat) i = Except.error m) :=
  let h := onready_static_hints_ignore_state Nat Nat Nat
    (PropertyImpl.mk (fun t => t) (fun _ i => i) 37)
    (ExportImpl.mk 99) OnReady.manual
  ⟨h.1, h.2.1, h.2.2 (fun v hv => nomatch hv)⟩

/-- C4: for any subtype-or-equal relation `R` on class names that accepts
`b ≤ b` and `d ≤ b` and rejects `b ≤ u`: a tag made with `of` for `b`
checks against `b` returning the id; a tag for the derived `d` checks
against `b` returning the id; a tag for `b` checked against the unrelated
`u` fails fatally with a message containing both class names, when
type-identity capture (debug_assertions) is enabled; and with capture
disabled the same call returns the id without failing. -/
theorem rtti_check_type_spec (R : String → String → Bool) (b d u : String)
    (id : Nat) (hb : R b b = true) (hd : R d b = true)
    (hu : R b u = false) :
    (ObjectRtti.of true b id).check_type R b = Except.ok id
    ∧ (ObjectRtti.of true d id).check_type R b = Except.ok id
    ∧ (∃ s₁ s₂ s₃ : String,
        (ObjectRtti.of true b id).check_type R u
          = Except.error (OpError.fatal (s₁ ++ b ++ s₂ ++ u ++ s₃)))
    ∧ (ObjectRtti.of false b id).check_type R u = Except.ok id := by
  refine ⟨?_, ?_, ?_, rfl⟩
  · simp [ObjectRtti.check_type, ObjectRtti.of, ensure_object_inherits, hb]
  · simp [ObjectRtti.check_type, ObjectRtti.of, ensure_object_inherits, hd]
  · refine ⟨"instance of class ", " is not a ",
      " (instance id " ++ toString id ++ ")", ?_⟩
    simp [ObjectRtti.check_type, ObjectRtti.of, ensure_object_inherits, hu,
      String.append_assoc]

/-- Witness for C4 at the concrete `sampleInherits` relation with classes
`Node` (base), `Node2D` (derived) and `RefCounted` (unrelated) and
instance id 42. -/
theorem rtti_check_type_spec_witness :
    sampleInherits "Node" "Node" = true
    ∧ sampleInherits "Node2D" "Node" = true
    ∧ sampleInherits "Node" "RefCounted" = false
    ∧ ((ObjectRtti.of true "Node" 42).check_type sampleInherits "Node"
          = Except.ok 42
       ∧ (ObjectRtti.of true "Node2D" 42).check_type sampleInherits "Node"
          = Except.ok 42
       ∧ (∃ s₁ s₂ s₃ : String,
            (ObjectRtti.of true "Node" 42).check_type sampleInherits
                "RefCounted"
              = Except.error (OpError.fatal
                  (s₁ ++ "Node" ++ s₂ ++ "RefCounted" ++ s₃)))
       ∧ (ObjectRtti.of false "Node" 42).check_type sampleInherits
            "RefCounted" = Except.ok 42) :=
  ⟨by decide, by decide, by decide,
    rtti_check_type_spec sampleInherits "Node" "Node2D" "RefCounted" 42
      (by decide) (by decide) (by decide)⟩
